import Mathlib

/-!
Verification development for ExpenseFlow's Causal Consistency & Time-Travel
State Engine: a shallow embedding of `src/services/consensusEngine.js`,
`src/services/replayEngine.js`, the `StateDelta` model's `getReverseDelta`
method, and `EnhancedAuditLogger.calculateFinancialImpact`, together with
theorems settling the frozen specification claims.

Monetary amounts are embedded as `Int` (the source uses JS numbers as exact
currency amounts); goal progress, the one true division in the source, is
embedded as `Rat`.  Timestamps and dates are embedded as `Nat` instants.
-/

/-! ## Vector clocks -/

/-- A vector clock: an ordered mapping from actor id to counter, as stored in
the record's `vectorClock` map.  Insertion order is kept, mirroring the JS
`Map`/plain-object representation. -/
abbrev Clock := List (String × Nat)

namespace vectorClockUtils

/-- Modelled from the spec: `utils/vectorClockUtils.js` is not under `src/`.
Spec §4.1: clocks compared must use the full actor-id set union, and a
missing actor is implicitly treated as 0.  This is the counter lookup. -/
def getC (c : Clock) (a : String) : Nat :=
  (c.lookup a).getD 0

/-- Modelled from the spec: the actor-id set union used by `compare` and
`merge` (§4.1), in first-appearance order. -/
def actorsOf (a b : Clock) : List String :=
  (a.map Prod.fst ++ b.map Prod.fst).dedup

/-- The four causal relations `compare` can return.  The spec (§4.1) names
the strictly-dominated case `less`; `consensusEngine.js` tests the
comparator's string for that case as `smaller`, so the constructor keeps
the source's label. -/
inductive Relation where
  | equal
  | smaller
  | greater
  | concurrent
deriving DecidableEq

/-- Modelled from the spec: `utils/vectorClockUtils.js` is not under `src/`.
Spec §4.1: `equal` iff all counters match; `less` (source label `smaller`)
iff every counter of `a` is ≤ `b`'s and at least one is strictly smaller;
symmetric for `greater`; otherwise `concurrent`. -/
def compare (a b : Clock) : Relation :=
  let acts := actorsOf a b
  let aLe := acts.all fun k => decide (getC a k ≤ getC b k)
  let bLe := acts.all fun k => decide (getC b k ≤ getC a k)
  if aLe && bLe then Relation.equal
  else if aLe then Relation.smaller
  else if bLe then Relation.greater
  else Relation.concurrent

/-- Modelled from the spec: `utils/vectorClockUtils.js` is not under `src/`.
Spec §4.1: `merge(a, b)` is the pointwise maximum per actor over the union
of the actor sets. -/
def merge (a b : Clock) : Clock :=
  (actorsOf a b).map fun k => (k, max (getC a k) (getC b k))

/-- Modelled from the spec: `utils/vectorClockUtils.js` is not under `src/`.
Map-style `set`: replace the named actor's entry, or append it when absent
(JS `Map.set` keeps insertion order and appends new keys). -/
def setC (c : Clock) (a : String) (v : Nat) : Clock :=
  if c.any fun p => p.1 == a then
    c.map fun p => if p.1 = a then (a, v) else p
  else
    c ++ [(a, v)]

/-- Modelled from the spec: `utils/vectorClockUtils.js` is not under `src/`.
Spec §4.1: `increment(clock, actor)` copies the clock with the named actor's
counter incremented by one; unknown actors start at 0 before incrementing. -/
def increment (c : Clock) (a : String) : Clock :=
  setC c a (getC c a + 1)

end vectorClockUtils

/-! ## Content hashing -/

/-- The opaque client update payload handed to `reconcile` (the JS object's
content, up to the deterministic serialization the hasher applies). -/
abbrev Payload := String

namespace hashGenerator

/-- Modelled from the spec: `utils/hashGenerator.js` is not under `src/`.
Spec §6 requires only a deterministic, stable content hash of a payload;
it is embedded as a deterministic injection on the opaque payload. -/
def generateTransactionHash (payload : Payload) : String :=
  String.append "sha256:" payload

end hashGenerator

/-! ## Consensus engine data model -/

/-- The server-side record (a transaction document) as `reconcile` and
`resolveConflict` touch it: its payload fields plus the attached vector
clock and `syncMetadata` (checksum, sync status, conflicts count). -/
structure Transaction where
  id : Nat
  user : Nat
  payload : Payload
  vectorClock : Clock
  syncStatus : String
  checksum : String
  conflictsCount : Nat
deriving DecidableEq

/-- A `SyncConflict` document (the conflict graveyard entry) as created by
`ConsensusEngine.reconcile`.  Modelled from the spec for the parts outside
`src/`: `models/SyncConflict.js` is not under `src/`; the spec's data model
(§3) gives resolution status in the set containing `open` and `resolved`
with `open` as the initial value, a chosen strategy and a resolution
timestamp, set exactly once.  `resolvedAt` records whether the wall-clock
resolution timestamp has been set. -/
structure ConflictEntry where
  transactionId : Nat
  userId : Nat
  serverState : Transaction
  clientState : Payload
  serverClock : Clock
  clientClock : Clock
  checksum : String
  status : String := "open"
  resolutionStrategy : Option String := none
  resolvedAt : Bool := false
deriving DecidableEq

/-- The result object returned by `reconcile`: the `action` discriminator
together with the `reason` or `data` fields the source attaches to it. -/
inductive ReconcileResult where
  | ignore (reason : String)
  | update (payload : Payload) (vectorClock : Clock) (checksum : String)
  | conflict (syncStatus : String) (conflictsCount : Nat)
deriving DecidableEq

/-- `ConsensusEngine.reconcile` (src/services/consensusEngine.js:19-86),
embedded as a pure function.  The single side effect of the source — the
`SyncConflict.create` call on the conflict path — is returned as the second
component (the conflict entry persisted by the call, if any). -/
def reconcile (tx : Transaction) (clientUpdate : Payload) (clientClock : Clock)
    (_deviceId : String) : ReconcileResult × Option ConflictEntry :=
  let serverClock := tx.vectorClock
  let relation := vectorClockUtils.compare clientClock serverClock
  if relation = vectorClockUtils.Relation.smaller then
    (ReconcileResult.ignore "stale_update", none)
  else if relation = vectorClockUtils.Relation.greater then
    let mergedClock := vectorClockUtils.increment
      (vectorClockUtils.merge serverClock clientClock) "server"
    (ReconcileResult.update clientUpdate mergedClock
      (hashGenerator.generateTransactionHash clientUpdate), none)
  else if relation = vectorClockUtils.Relation.concurrent ∨
      relation = vectorClockUtils.Relation.equal then
    let clientHash := hashGenerator.generateTransactionHash clientUpdate
    if relation = vectorClockUtils.Relation.equal ∧ tx.checksum = clientHash then
      (ReconcileResult.ignore "redundant_update", none)
    else
      (ReconcileResult.conflict "conflict" (tx.conflictsCount + 1),
        some { transactionId := tx.id
               userId := tx.user
               serverState := tx
               clientState := clientUpdate
               serverClock := serverClock
               clientClock := clientClock
               checksum := clientHash })
  else
    (ReconcileResult.ignore "unknown_relation", none)

/-- Interpretation of the `data` object `reconcile` returns, as the mongo
dot-path update a caller persists: an `update` result replaces the payload,
clock and checksum; a `conflict` result sets only the two `syncMetadata`
fields its data names; an `ignore` result changes nothing. -/
def applyResult (tx : Transaction) (r : ReconcileResult) : Transaction :=
  match r with
  | ReconcileResult.ignore _ => tx
  | ReconcileResult.update p c h =>
      { tx with payload := p, vectorClock := c, checksum := h }
  | ReconcileResult.conflict s n =>
      { tx with syncStatus := s, conflictsCount := n }

/-- The conflict entries persisted by one `reconcile` call (zero or one). -/
def conflictsCreated (tx : Transaction) (clientUpdate : Payload)
    (clientClock : Clock) (deviceId : String) : List ConflictEntry :=
  ((reconcile tx clientUpdate clientClock deviceId).2).toList

/-- The conflict entries accumulated in the graveyard by `n` repeated,
identical `reconcile` calls against the same stored record: each call's
`SyncConflict.create` appends a fresh document. -/
def repeatedReconcileConflicts (tx : Transaction) (clientUpdate : Payload)
    (clientClock : Clock) (deviceId : String) (n : Nat) : List ConflictEntry :=
  List.flatten (List.replicate n (conflictsCreated tx clientUpdate clientClock deviceId))

/-! ## Conflict resolution -/

/-- The tail of `ConsensusEngine.resolveConflict`
(src/services/consensusEngine.js:112-125) after `finalData` has been chosen:
set the final state on the transaction, reset sync status to `synced`,
decrement the conflicts count with `Math.max(0, n - 1)` (truncated `Nat`
subtraction), bump the server actor's clock counter, and mark the conflict
resolved with its strategy and timestamp recorded. -/
def finishResolution (conflict : ConflictEntry) (tx1 : Transaction)
    (strategy : String) : Transaction × ConflictEntry :=
  let tx2 := { tx1 with syncStatus := "synced", conflictsCount := tx1.conflictsCount - 1 }
  let tx3 := { tx2 with vectorClock := vectorClockUtils.increment tx2.vectorClock "server" }
  (tx3, { conflict with status := "resolved"
                        resolutionStrategy := some strategy
                        resolvedAt := true })

/-- `ConsensusEngine.resolveConflict` (src/services/consensusEngine.js:91-128).
`found` stands for the `SyncConflict.findById(...).populate('transactionId')`
lookup: the conflict document paired with its populated transaction, or
`none` when the id matches no document.  `resolvedData` is the caller's
merge override object (opaque payload fields); `client_wins` sets the stored
client state on the transaction, `server_wins` restores the full recorded
server state, and `merge` overlays the overrides on the server state. -/
def resolveConflict (found : Option (ConflictEntry × Transaction))
    (strategy : String) (resolvedData : Payload) :
    Except String (Transaction × ConflictEntry) :=
  match found with
  | none => Except.error "Conflict record not found"
  | some (conflict, tx) =>
    if strategy = "client_wins" then
      Except.ok (finishResolution conflict { tx with payload := conflict.clientState } strategy)
    else if strategy = "server_wins" then
      Except.ok (finishResolution conflict conflict.serverState strategy)
    else if strategy = "merge" then
      Except.ok (finishResolution conflict
        { conflict.serverState with payload := resolvedData } strategy)
    else
      Except.error "Invalid resolution strategy"

/-! ## Replay engine data model -/

/-- One entry of the state's `categoryBreakdown` list.  Its per-category
`transactionCount` is adjusted by unclamped `+1 / -1` in the source, so it
is an `Int`. -/
structure CategoryEntry where
  category : String
  amount : Int
  transactionCount : Int
deriving DecidableEq

/-- One entry of the state's `budgets` list. -/
structure BudgetEntry where
  budgetId : Nat
  limit : Int
  spent : Int
  remaining : Int
deriving DecidableEq

/-- One entry of the state's `goals` list.  `progress` is the one true
division in the source (`currentAmount / targetAmount * 100`), embedded
as `Rat`. -/
structure GoalEntry where
  goalId : Nat
  targetAmount : Int
  currentAmount : Int
  progress : Rat
deriving DecidableEq

/-- One entry of the state's `accounts` list (never touched by
`applyDelta`). -/
structure AccountEntry where
  accountId : Nat
  balance : Int
  currency : String
deriving DecidableEq

/-- The reconstructed financial state (`AuditSnapshot.state` shape).  The
global `transactionCount` is clamped at zero by the source
(`Math.max(0, count - 1)`), so it is a `Nat` with truncated subtraction. -/
structure FinState where
  totalBalance : Int
  totalIncome : Int
  totalExpenses : Int
  categoryBreakdown : List CategoryEntry
  budgets : List BudgetEntry
  goals : List GoalEntry
  accounts : List AccountEntry
  transactionCount : Nat
  currency : String
deriving DecidableEq

/-- The `financialImpact` sub-document of a `StateDelta`. -/
structure FinancialImpact where
  balanceChange : Int
  affectedCategories : List String
  affectedBudgets : List Nat
  affectedGoals : List Nat
deriving DecidableEq

/-- The entity snapshot stored in a delta's `beforeState` / `afterState`
(`Mixed` in the schema): the fields the replay engine and the financial
impact calculator read.  `budgetId` / `goalId` back-references are optional
as in the source's `beforeState?.budgetId` accesses. -/
structure EntityState where
  type : String := ""
  amount : Int := 0
  category : String := ""
  limit : Int := 0
  spent : Int := 0
  targetAmount : Int := 0
  currentAmount : Int := 0
  budgetId : Option Nat := none
  goalId : Option Nat := none
deriving DecidableEq

/-- One `changedFields` item of a `StateDelta`; the values are opaque. -/
structure ChangedField where
  field : String
  oldValue : String
  newValue : String
deriving DecidableEq

/-- A `StateDelta` document: one immutable record of a state transition. -/
structure Delta where
  user : Nat := 0
  timestamp : Nat := 0
  entityType : String
  entityId : Nat
  operation : String
  beforeState : Option EntityState := none
  afterState : Option EntityState := none
  changedFields : List ChangedField := []
  financialImpact : FinancialImpact
deriving DecidableEq

/-- An `AuditSnapshot` document: a point-in-time checkpoint of the state. -/
structure Snapshot where
  user : Nat := 0
  snapshotDate : Nat
  snapshotType : String := "daily"
  state : FinState
deriving DecidableEq

/-! ## Replay engine operations -/

/-- The category-breakdown update of `ReplayEngine.applyDelta`
(src/services/replayEngine.js:115-130) for one affected category: the first
entry with a matching category accumulates the balance change and adjusts
its per-category transaction count; when no entry matches and the operation
is `create`, a fresh entry is pushed at the end. -/
def updateCategoryList (op : String) (bc : Int) (cat : String) :
    List CategoryEntry → List CategoryEntry
  | [] => if op = "create" then [{ category := cat, amount := bc, transactionCount := 1 }] else []
  | e :: rest =>
    if e.category = cat then
      { e with amount := e.amount + bc,
               transactionCount := e.transactionCount +
                 (if op = "create" then 1 else if op = "delete" then -1 else 0) } :: rest
    else
      e :: updateCategoryList op bc cat rest

/-- The `forEach` over `financialImpact.affectedCategories`
(src/services/replayEngine.js:116), folding the per-category update over the
breakdown list. -/
def applyCategories (op : String) (bc : Int) (cats : List String)
    (breakdown : List CategoryEntry) : List CategoryEntry :=
  cats.foldl (fun bd cat => updateCategoryList op bc cat bd) breakdown

/-- `ReplayEngine.updateBudgetInState` (src/services/replayEngine.js:154-178),
factored over the `budgets` list it rewrites: `create` pushes a new entry,
`update` replaces the first entry with a matching id, `delete` splices it
out; `update`/`create` require an `afterState`. -/
def budgetsAfter (budgets : List BudgetEntry) (d : Delta) : List BudgetEntry :=
  let idx := budgets.findIdx? fun b => b.budgetId == d.entityId
  if d.operation = "create" then
    match d.afterState with
    | some a => budgets ++ [{ budgetId := d.entityId, limit := a.limit,
                              spent := a.spent, remaining := a.limit - a.spent }]
    | none => budgets
  else if d.operation = "update" then
    match idx, d.afterState with
    | some i, some a => budgets.set i { budgetId := d.entityId, limit := a.limit,
                                        spent := a.spent, remaining := a.limit - a.spent }
    | _, _ => budgets
  else if d.operation = "delete" then
    match idx with
    | some i => budgets.eraseIdx i
    | none => budgets
  else budgets

/-- `ReplayEngine.updateGoalInState` (src/services/replayEngine.js:183-207),
factored over the `goals` list it rewrites. -/
def goalsAfter (goals : List GoalEntry) (d : Delta) : List GoalEntry :=
  let idx := goals.findIdx? fun g => g.goalId == d.entityId
  let mk : EntityState → GoalEntry := fun a =>
    { goalId := d.entityId, targetAmount := a.targetAmount,
      currentAmount := a.currentAmount,
      progress := ((a.currentAmount : Rat) / (a.targetAmount : Rat)) * 100 }
  if d.operation = "create" then
    match d.afterState with
    | some a => goals ++ [mk a]
    | none => goals
  else if d.operation = "update" then
    match idx, d.afterState with
    | some i, some a => goals.set i (mk a)
    | _, _ => goals
  else if d.operation = "delete" then
    match idx with
    | some i => goals.eraseIdx i
    | none => goals
  else goals

/-- `ReplayEngine.applyDelta` (src/services/replayEngine.js:100-149).  The
JS truthiness test `if (financialImpact.balanceChange)` is the `bc ≠ 0`
guard; a positive change is classified as income, any other nonzero change
adds `Math.abs(balanceChange)` to the expenses. -/
def applyDelta (state : FinState) (delta : Delta) : FinState :=
  let bc := delta.financialImpact.balanceChange
  let s1 :=
    if bc ≠ 0 then
      { state with
          totalBalance := state.totalBalance + bc,
          totalIncome := if 0 < bc then state.totalIncome + bc else state.totalIncome,
          totalExpenses := if 0 < bc then state.totalExpenses
                           else state.totalExpenses + (bc.natAbs : Int) }
    else state
  let s2 := { s1 with categoryBreakdown :=
                (applyCategories delta.operation bc
                  delta.financialImpact.affectedCategories s1.categoryBreakdown) }
  let s3 :=
    if delta.operation = "create" then
      { s2 with transactionCount := s2.transactionCount + 1 }
    else if delta.operation = "delete" then
      { s2 with transactionCount := s2.transactionCount - 1 }
    else s2
  let s4 := if delta.entityType = "budget" then
              { s3 with budgets := budgetsAfter s3.budgets delta }
            else s3
  if delta.entityType = "goal" then
    { s4 with goals := goalsAfter s4.goals delta }
  else s4

/-- `ReplayEngine.applyDeltas` (src/services/replayEngine.js:90-95): the
in-order left fold of `applyDelta`. -/
def applyDeltas (state : FinState) (deltas : List Delta) : FinState :=
  deltas.foldl applyDelta state

/-- The zeroed starting state of `ReplayEngine.reconstructFromScratch`
(src/services/replayEngine.js:213-223). -/
def initialReplayState : FinState :=
  { totalBalance := 0, totalIncome := 0, totalExpenses := 0,
    categoryBreakdown := [], budgets := [], goals := [], accounts := [],
    transactionCount := 0, currency := "INR" }

/-- The `StateDelta.find` range query with `timestamp ≤ t`, ascending by
timestamp.  The ledger list is taken in chronological (append) order, on
which the query's `sort` is the identity. -/
def deltasUpTo (history : List Delta) (t : Nat) : List Delta :=
  history.filter fun d => decide (d.timestamp ≤ t)

/-- The `StateDelta.find` window query of the snapshot branch
(src/services/replayEngine.js:36-42): `snapshotDate < timestamp ≤ target`,
ascending by timestamp over the chronologically ordered ledger. -/
def deltasInWindow (history : List Delta) (s t : Nat) : List Delta :=
  history.filter fun d => decide (s < d.timestamp) && decide (d.timestamp ≤ t)

/-- `ReplayEngine.findClosestSnapshot` (src/services/replayEngine.js:80-86):
the latest stored snapshot with `snapshotDate ≤ targetDate` (the `findOne`
with a descending sort on `snapshotDate`). -/
def findClosestSnapshot (snaps : List Snapshot) (t : Nat) : Option Snapshot :=
  (snaps.filter fun s => decide (s.snapshotDate ≤ t)).argmax Snapshot.snapshotDate

/-- `ReplayEngine.reconstructFromScratch` (src/services/replayEngine.js:212-232):
fold every delta with `timestamp ≤ targetDate` onto the zeroed state. -/
def reconstructFromScratch (history : List Delta) (t : Nat) : FinState :=
  applyDeltas initialReplayState (deltasUpTo history t)

/-- The state computation of `ReplayEngine.replayToDate`
(src/services/replayEngine.js:19-75): start from the closest prior
snapshot's (deep-copied) state and fold the window deltas, or fall back to
full from-scratch reconstruction when no snapshot precedes the target.  The
optional transaction-list attachment and the response metadata decorate the
result object and do not feed back into the state. -/
def replayToDate (snaps : List Snapshot) (history : List Delta) (t : Nat) : FinState :=
  match findClosestSnapshot snaps t with
  | some snap => applyDeltas snap.state (deltasInWindow history snap.snapshotDate t)
  | none => reconstructFromScratch history t

/-- One `{date, balance, income, expenses}` sample of `getStateEvolution`
(src/services/replayEngine.js:279-285). -/
structure Sample where
  date : Nat
  balance : Int
  income : Int
  expenses : Int
deriving DecidableEq

/-- The sample `getStateEvolution` pushes for one loop iteration: an
independent `replayToDate` call at the current date. -/
def sampleAt (snaps : List Snapshot) (history : List Delta) (d : Nat) : Sample :=
  let st := replayToDate snaps history d
  { date := d, balance := st.totalBalance, income := st.totalIncome,
    expenses := st.totalExpenses }

/-- The daily-interval sampling loop of `getStateEvolution`
(src/services/replayEngine.js:271-295): `while (current ≤ end)` push a
sample and advance one day.  The loop body runs once per day of the
inclusive range, which the fuel argument counts. -/
def evolutionSteps (snaps : List Snapshot) (history : List Delta)
    (current : Nat) : Nat → List Sample
  | 0 => []
  | fuel + 1 => sampleAt snaps history current ::
      evolutionSteps snaps history (current + 1) fuel

/-- `ReplayEngine.getStateEvolution` (src/services/replayEngine.js:270-299)
with interval `daily`, dates measured in days: samples every day from
`startDate` to `endDate` inclusive (no samples when `startDate > endDate`). -/
def getStateEvolution (snaps : List Snapshot) (history : List Delta)
    (startDate endDate : Nat) : List Sample :=
  evolutionSteps snaps history startDate (endDate + 1 - startDate)

/-! ## Delta construction collaborators -/

namespace stateDeltaSchema

/-- `stateDeltaSchema.methods.getReverseDelta`
(src/listeners/AuditListeners.js StateDelta model, lines 143-163): swap the
before/after states, invert `create` and `delete` (anything else becomes
`update`), swap each changed field's old/new values, and negate the
financial impact's balance change.  The derived object keeps the source
delta's identity fields. -/
def getReverseDelta (d : Delta) : Delta :=
  { user := d.user
    timestamp := d.timestamp
    entityType := d.entityType
    entityId := d.entityId
    operation := if d.operation = "create" then "delete"
                 else if d.operation = "delete" then "create"
                 else "update"
    beforeState := d.afterState
    afterState := d.beforeState
    changedFields := d.changedFields.map fun f =>
      { field := f.field, oldValue := f.newValue, newValue := f.oldValue }
    financialImpact :=
      { balanceChange := -d.financialImpact.balanceChange
        affectedCategories := d.financialImpact.affectedCategories
        affectedBudgets := d.financialImpact.affectedBudgets
        affectedGoals := d.financialImpact.affectedGoals } }

end stateDeltaSchema

namespace EnhancedAuditLogger

/-- `EnhancedAuditLogger.calculateFinancialImpact`
(src/unnamed/part_003, lines 690-745): the balance change and affected
categories of a transaction-entity mutation, plus budget/goal
back-reference tracking. -/
def calculateFinancialImpact (entityType operation : String)
    (before after : Option EntityState) : FinancialImpact :=
  let base : FinancialImpact :=
    { balanceChange := 0, affectedCategories := [], affectedBudgets := [], affectedGoals := [] }
  let base1 :=
    if entityType = "expense" ∨ entityType = "income" ∨ entityType = "transfer" then
      if operation = "create" then
        match after with
        | some a => { base with
            balanceChange := if a.type = "income" then a.amount else -a.amount,
            affectedCategories := [a.category] }
        | none => base
      else if operation = "delete" then
        match before with
        | some b => { base with
            balanceChange := if b.type = "income" then -b.amount else b.amount,
            affectedCategories := [b.category] }
        | none => base
      else if operation = "update" then
        match before, after with
        | some b, some a =>
          let oldImpact := if b.type = "income" then b.amount else -b.amount
          let newImpact := if a.type = "income" then a.amount else -a.amount
          { base with
            balanceChange := newImpact - oldImpact,
            affectedCategories :=
              if b.category = a.category then [b.category] else [b.category, a.category] }
        | _, _ => base
      else base
    else base
  let beforeBudget := (before.bind EntityState.budgetId).toList
  let afterBudget :=
    match after.bind EntityState.budgetId with
    | some id => if before.bind EntityState.budgetId ≠ some id then [id] else []
    | none => []
  let beforeGoal := (before.bind EntityState.goalId).toList
  let afterGoal :=
    match after.bind EntityState.goalId with
    | some id => if before.bind EntityState.goalId ≠ some id then [id] else []
    | none => []
  { base1 with
    affectedBudgets := base1.affectedBudgets ++ beforeBudget ++ afterBudget,
    affectedGoals := base1.affectedGoals ++ beforeGoal ++ afterGoal }

end EnhancedAuditLogger

/-! ## Scalar-field characterizations of applyDelta -/

theorem applyDelta_totalBalance (s : FinState) (d : Delta) :
    (applyDelta s d).totalBalance = s.totalBalance + d.financialImpact.balanceChange := by
  simp only [applyDelta]
  split_ifs <;> simp_all

theorem applyDelta_totalIncome (s : FinState) (d : Delta) :
    (applyDelta s d).totalIncome = s.totalIncome +
      (if 0 < d.financialImpact.balanceChange then d.financialImpact.balanceChange else 0) := by
  simp only [applyDelta]
  split_ifs <;> simp_all

theorem applyDelta_totalExpenses (s : FinState) (d : Delta) :
    (applyDelta s d).totalExpenses = s.totalExpenses +
      (if d.financialImpact.balanceChange < 0
       then (d.financialImpact.balanceChange.natAbs : Int) else 0) := by
  simp only [applyDelta]
  split_ifs <;> simp_all <;> omega

theorem applyDelta_transactionCount (s : FinState) (d : Delta) :
    (applyDelta s d).transactionCount =
      if d.operation = "create" then s.transactionCount + 1
      else if d.operation = "delete" then s.transactionCount - 1
      else s.transactionCount := by
  simp only [applyDelta]
  split_ifs <;> simp_all

theorem getReverseDelta_balanceChange (d : Delta) :
    (stateDeltaSchema.getReverseDelta d).financialImpact.balanceChange =
      -d.financialImpact.balanceChange := rfl

theorem getReverseDelta_operation (d : Delta) :
    (stateDeltaSchema.getReverseDelta d).operation =
      if d.operation = "create" then "delete"
      else if d.operation = "delete" then "create"
      else "update" := rfl

/-! ## Claim C4: delta / reverse-delta round trip -/

/-- The concrete delta refuting C4: the audited creation of a 500-unit
expense, with its financial impact computed by the source's own
`calculateFinancialImpact`. -/
def c4delta : Delta :=
  { entityType := "expense", entityId := 1, operation := "create",
    afterState := some { type := "expense", amount := 500, category := "food" },
    financialImpact := EnhancedAuditLogger.calculateFinancialImpact "expense" "create"
      none (some { type := "expense", amount := 500, category := "food" }) }

/-- C4 counterexample: applying the create-500-expense delta and then its
computed reverse delta does not return the state to its pre-delta value:
total income and total expenses each end at 500 instead of 0, and the
category breakdown retains a zeroed entry, although the total balance and
the transaction count are restored. -/
theorem applyDelta_reverse_not_roundtrip :
    applyDelta (applyDelta initialReplayState c4delta)
        (stateDeltaSchema.getReverseDelta c4delta) ≠ initialReplayState ∧
    (applyDelta (applyDelta initialReplayState c4delta)
        (stateDeltaSchema.getReverseDelta c4delta)).totalIncome = 500 ∧
    (applyDelta (applyDelta initialReplayState c4delta)
        (stateDeltaSchema.getReverseDelta c4delta)).totalExpenses = 500 ∧
    initialReplayState.totalIncome = 0 ∧
    initialReplayState.totalExpenses = 0 ∧
    (applyDelta (applyDelta initialReplayState c4delta)
        (stateDeltaSchema.getReverseDelta c4delta)).totalBalance =
      initialReplayState.totalBalance ∧
    (applyDelta (applyDelta initialReplayState c4delta)
        (stateDeltaSchema.getReverseDelta c4delta)).transactionCount =
      initialReplayState.transactionCount := by
  decide

/-- C4 (amended): applying a delta and then its computed reverse delta
restores the total balance always, and restores the transaction count
unless the delta is a `delete` applied at a zero transaction count; when the
delta's balance change is zero the income and expense totals are also
restored, but when it is nonzero they do not return to their pre-delta
values: each ends exactly `Math.abs(balanceChange)` above it. -/
theorem applyDelta_reverse_roundtrip_scalars (s : FinState) (d : Delta) :
    ((applyDelta (applyDelta s d) (stateDeltaSchema.getReverseDelta d)).totalBalance
        = s.totalBalance) ∧
    (d.operation = "delete" → 1 ≤ s.transactionCount →
      (applyDelta (applyDelta s d) (stateDeltaSchema.getReverseDelta d)).transactionCount
        = s.transactionCount) ∧
    (d.operation ≠ "delete" →
      (applyDelta (applyDelta s d) (stateDeltaSchema.getReverseDelta d)).transactionCount
        = s.transactionCount) ∧
    (d.financialImpact.balanceChange = 0 →
      (applyDelta (applyDelta s d) (stateDeltaSchema.getReverseDelta d)).totalIncome
          = s.totalIncome ∧
      (applyDelta (applyDelta s d) (stateDeltaSchema.getReverseDelta d)).totalExpenses
          = s.totalExpenses) ∧
    (d.financialImpact.balanceChange ≠ 0 →
      (applyDelta (applyDelta s d) (stateDeltaSchema.getReverseDelta d)).totalIncome
          = s.totalIncome + (d.financialImpact.balanceChange.natAbs : Int) ∧
      (applyDelta (applyDelta s d) (stateDeltaSchema.getReverseDelta d)).totalExpenses
          = s.totalExpenses + (d.financialImpact.balanceChange.natAbs : Int)) := by
  refine ⟨?_, ?_, ?_, ?_, ?_⟩
  · rw [applyDelta_totalBalance, applyDelta_totalBalance, getReverseDelta_balanceChange]
    omega
  · intro hop hcount
    rw [applyDelta_transactionCount, applyDelta_transactionCount,
        getReverseDelta_operation, hop]
    simp only [String.reduceEq, if_false, if_true, ite_false, ite_true, reduceIte]
    omega
  · intro hop
    rw [applyDelta_transactionCount, applyDelta_transactionCount, getReverseDelta_operation]
    by_cases hc : d.operation = "create"
    · simp [hc]
    · simp [hc, hop]
  · intro hz
    constructor
    · rw [applyDelta_totalIncome, applyDelta_totalIncome, getReverseDelta_balanceChange, hz]
      norm_num
    · rw [applyDelta_totalExpenses, applyDelta_totalExpenses, getReverseDelta_balanceChange, hz]
      norm_num
  · intro hnz
    constructor
    · rw [applyDelta_totalIncome, applyDelta_totalIncome, getReverseDelta_balanceChange]
      split_ifs <;> omega
    · rw [applyDelta_totalExpenses, applyDelta_totalExpenses, getReverseDelta_balanceChange]
      split_ifs <;> omega

/-- C4 witness: the amended round-trip facts evaluated on concrete inputs —
a delete-of-a-400-expense delta applied at transaction count 1, and the
create-500-expense delta (a nonzero, negative balance change). -/
theorem applyDelta_reverse_roundtrip_scalars_witness :
    ((applyDelta (applyDelta initialReplayState c4delta)
        (stateDeltaSchema.getReverseDelta c4delta)).totalBalance
      = initialReplayState.totalBalance) ∧
    ((applyDelta (applyDelta
        { initialReplayState with transactionCount := 1 }
        { entityType := "expense", entityId := 2, operation := "delete",
          beforeState := some { type := "expense", amount := 400, category := "rent" },
          financialImpact := EnhancedAuditLogger.calculateFinancialImpact "expense" "delete"
            (some { type := "expense", amount := 400, category := "rent" }) none })
        (stateDeltaSchema.getReverseDelta
        { entityType := "expense", entityId := 2, operation := "delete",
          beforeState := some { type := "expense", amount := 400, category := "rent" },
          financialImpact := EnhancedAuditLogger.calculateFinancialImpact "expense" "delete"
            (some { type := "expense", amount := 400, category := "rent" }) none })).transactionCount
      = ({ initialReplayState with transactionCount := 1 } : FinState).transactionCount) ∧
    ((applyDelta (applyDelta initialReplayState c4delta)
        (stateDeltaSchema.getReverseDelta c4delta)).totalIncome
      = initialReplayState.totalIncome + ((c4delta.financialImpact.balanceChange.natAbs : Int))) := by
  refine ⟨(applyDelta_reverse_roundtrip_scalars initialReplayState c4delta).1,
    (applyDelta_reverse_roundtrip_scalars _ _).2.1 (by decide) (by decide),
    ((applyDelta_reverse_roundtrip_scalars initialReplayState c4delta).2.2.2.2 (by decide)).1⟩

/-! ## Claim C10: sign-based income/expense classification -/

/-- The audited creation delta of an expense of the given amount and
category, with impact from the source's `calculateFinancialImpact`. -/
def expenseCreateDelta (amount : Int) (cat : String) : Delta :=
  { entityType := "expense", entityId := 1, operation := "create",
    afterState := some { type := "expense", amount := amount, category := cat },
    financialImpact := EnhancedAuditLogger.calculateFinancialImpact "expense" "create"
      none (some { type := "expense", amount := amount, category := cat }) }

/-- The audited deletion delta of that same expense: per
`calculateFinancialImpact`, deleting reverses the impact, a positive
balance change. -/
def expenseDeleteDelta (amount : Int) (cat : String) : Delta :=
  { entityType := "expense", entityId := 1, operation := "delete",
    beforeState := some { type := "expense", amount := amount, category := cat },
    financialImpact := EnhancedAuditLogger.calculateFinancialImpact "expense" "delete"
      (some { type := "expense", amount := amount, category := cat }) none }

theorem expenseCreateDelta_balanceChange (amount : Int) (cat : String) :
    (expenseCreateDelta amount cat).financialImpact.balanceChange = -amount := by
  simp [expenseCreateDelta, EnhancedAuditLogger.calculateFinancialImpact]

theorem expenseDeleteDelta_balanceChange (amount : Int) (cat : String) :
    (expenseDeleteDelta amount cat).financialImpact.balanceChange = amount := by
  simp [expenseDeleteDelta, EnhancedAuditLogger.calculateFinancialImpact]

/-- C10: `applyDelta` classifies income versus expense purely by the sign of
`financialImpact.balanceChange`: a positive change is added to
`totalIncome` (expenses untouched), a negative change adds its absolute
value to `totalExpenses` (income untouched); consequently both totals are
monotone under any replay fold; and the audited create-then-delete pair of
an expense restores the total balance while leaving the income and expense
totals each exactly `amount` above their pre-creation values. -/
theorem applyDelta_sign_classification :
    (∀ (s : FinState) (d : Delta), 0 < d.financialImpact.balanceChange →
      (applyDelta s d).totalIncome = s.totalIncome + d.financialImpact.balanceChange ∧
      (applyDelta s d).totalExpenses = s.totalExpenses) ∧
    (∀ (s : FinState) (d : Delta), d.financialImpact.balanceChange < 0 →
      (applyDelta s d).totalExpenses =
        s.totalExpenses + (d.financialImpact.balanceChange.natAbs : Int) ∧
      (applyDelta s d).totalIncome = s.totalIncome) ∧
    (∀ (s : FinState) (ds : List Delta),
      s.totalIncome ≤ (applyDeltas s ds).totalIncome ∧
      s.totalExpenses ≤ (applyDeltas s ds).totalExpenses) ∧
    (∀ (s : FinState) (amount : Int) (cat : String), 0 < amount →
      (applyDelta (applyDelta s (expenseCreateDelta amount cat))
          (expenseDeleteDelta amount cat)).totalBalance = s.totalBalance ∧
      (applyDelta (applyDelta s (expenseCreateDelta amount cat))
          (expenseDeleteDelta amount cat)).totalIncome = s.totalIncome + amount ∧
      (applyDelta (applyDelta s (expenseCreateDelta amount cat))
          (expenseDeleteDelta amount cat)).totalExpenses = s.totalExpenses + amount ∧
      s.totalIncome < (applyDelta (applyDelta s (expenseCreateDelta amount cat))
          (expenseDeleteDelta amount cat)).totalIncome ∧
      s.totalExpenses < (applyDelta (applyDelta s (expenseCreateDelta amount cat))
          (expenseDeleteDelta amount cat)).totalExpenses) := by
  have hinc : ∀ (s : FinState) (d : Delta),
      s.totalIncome ≤ (applyDelta s d).totalIncome := by
    intro s d
    rw [applyDelta_totalIncome]
    split_ifs <;> omega
  have hexp : ∀ (s : FinState) (d : Delta),
      s.totalExpenses ≤ (applyDelta s d).totalExpenses := by
    intro s d
    rw [applyDelta_totalExpenses]
    split_ifs <;> omega
  refine ⟨?_, ?_, ?_, ?_⟩
  · intro s d h
    rw [applyDelta_totalIncome, applyDelta_totalExpenses]
    constructor
    · rw [if_pos h]
    · rw [if_neg (by omega)]
      omega
  · intro s d h
    rw [applyDelta_totalIncome, applyDelta_totalExpenses]
    constructor
    · rw [if_pos h]
    · rw [if_neg (by omega)]
      omega
  · intro s ds
    induction ds generalizing s with
    | nil => exact ⟨le_refl _, le_refl _⟩
    | cons d ds ih =>
      have hstep := ih (applyDelta s d)
      exact ⟨le_trans (hinc s d) hstep.1, le_trans (hexp s d) hstep.2⟩
  · intro s amount cat hpos
    have hb1 := applyDelta_totalBalance s (expenseCreateDelta amount cat)
    have hb2 := applyDelta_totalBalance (applyDelta s (expenseCreateDelta amount cat))
      (expenseDeleteDelta amount cat)
    have hi1 := applyDelta_totalIncome s (expenseCreateDelta amount cat)
    have hi2 := applyDelta_totalIncome (applyDelta s (expenseCreateDelta amount cat))
      (expenseDeleteDelta amount cat)
    have he1 := applyDelta_totalExpenses s (expenseCreateDelta amount cat)
    have he2 := applyDelta_totalExpenses (applyDelta s (expenseCreateDelta amount cat))
      (expenseDeleteDelta amount cat)
    rw [expenseCreateDelta_balanceChange] at hb1 hi1 he1
    rw [expenseDeleteDelta_balanceChange] at hb2 hi2 he2
    rw [if_neg (show ¬ 0 < -amount by omega)] at hi1
    rw [if_pos (show -amount < 0 by omega)] at he1
    rw [if_pos hpos] at hi2
    rw [if_neg (show ¬ amount < 0 by omega)] at he2
    refine ⟨by omega, by omega, by omega, by omega, by omega⟩

/-- A concrete positive-impact delta (an income of 5), used to evaluate the
classification on an explicit input. -/
def c10posDelta : Delta :=
  { entityType := "income", entityId := 3, operation := "create",
    financialImpact := { balanceChange := 5, affectedCategories := ["salary"], affectedBudgets := [], affectedGoals := [] } }

/-- A concrete negative-impact delta (an expense of 3), used to evaluate the
classification on an explicit input. -/
def c10negDelta : Delta :=
  { entityType := "expense", entityId := 4, operation := "create",
    financialImpact := { balanceChange := -3, affectedCategories := ["tea"], affectedBudgets := [], affectedGoals := [] } }

/-- C10 witness: the classification facts evaluated at concrete inputs — a
positive delta of 5, a negative delta of 3, a two-delta fold, and the
create-then-delete pair of a 500-unit expense starting from the zeroed
state. -/
theorem applyDelta_sign_classification_witness :
    ((applyDelta initialReplayState c10posDelta).totalIncome
      = initialReplayState.totalIncome + 5) ∧
    ((applyDelta initialReplayState c10negDelta).totalExpenses
      = initialReplayState.totalExpenses + 3) ∧
    ((applyDelta (applyDelta initialReplayState (expenseCreateDelta 500 "food"))
        (expenseDeleteDelta 500 "food")).totalIncome
      = initialReplayState.totalIncome + 500) ∧
    initialReplayState.totalIncome ≤
      (applyDeltas initialReplayState
        [expenseCreateDelta 500 "food", expenseDeleteDelta 500 "food"]).totalIncome := by
  refine ⟨?_, ?_, ?_, ?_⟩
  · exact (applyDelta_sign_classification.1 initialReplayState c10posDelta (by decide)).1
  · have h := (applyDelta_sign_classification.2.1 initialReplayState c10negDelta (by decide)).1
    simpa using h
  · exact (applyDelta_sign_classification.2.2.2 initialReplayState 500 "food" (by decide)).2.1
  · exact (applyDelta_sign_classification.2.2.1 initialReplayState
      [expenseCreateDelta 500 "food", expenseDeleteDelta 500 "food"]).1

/-! ## Claims C1, C2, C7, C8: reconcile paths -/

/-- C1: whenever the clocks compare as concurrent, or as equal with a client
content hash differing from the stored checksum, `reconcile` persists a
`ConflictEntry` holding the full server state, the full client state, both
vector clocks and the client content hash, returns the `conflict` action
whose data marks the record's sync status `conflict` and sets the conflict
counter to exactly one more than before, and leaves the record's
authoritative payload, clock and checksum untouched. -/
theorem reconcile_true_conflict (tx : Transaction) (cu : Payload) (cc : Clock) (dev : String)
    (h : vectorClockUtils.compare cc tx.vectorClock = vectorClockUtils.Relation.concurrent ∨
      (vectorClockUtils.compare cc tx.vectorClock = vectorClockUtils.Relation.equal ∧
        hashGenerator.generateTransactionHash cu ≠ tx.checksum)) :
    (reconcile tx cu cc dev).2 = some
      { transactionId := tx.id, userId := tx.user, serverState := tx, clientState := cu,
        serverClock := tx.vectorClock, clientClock := cc,
        checksum := hashGenerator.generateTransactionHash cu } ∧
    (reconcile tx cu cc dev).1 =
      ReconcileResult.conflict "conflict" (tx.conflictsCount + 1) ∧
    (applyResult tx (reconcile tx cu cc dev).1).syncStatus = "conflict" ∧
    (applyResult tx (reconcile tx cu cc dev).1).conflictsCount = tx.conflictsCount + 1 ∧
    (applyResult tx (reconcile tx cu cc dev).1).payload = tx.payload ∧
    (applyResult tx (reconcile tx cu cc dev).1).vectorClock = tx.vectorClock ∧
    (applyResult tx (reconcile tx cu cc dev).1).checksum = tx.checksum := by
  have hrec : reconcile tx cu cc dev =
      (ReconcileResult.conflict "conflict" (tx.conflictsCount + 1),
       some { transactionId := tx.id, userId := tx.user, serverState := tx, clientState := cu,
              serverClock := tx.vectorClock, clientClock := cc,
              checksum := hashGenerator.generateTransactionHash cu }) := by
    rcases h with hrel | ⟨hrel, hne⟩
    · simp [reconcile, hrel]
    · have hne' : ¬ (tx.checksum = hashGenerator.generateTransactionHash cu) :=
        fun h0 => hne h0.symm
      simp [reconcile, hrel, hne']
  rw [hrec]
  exact ⟨rfl, rfl, rfl, rfl, rfl, rfl, rfl⟩

/-- The concrete stored record of the C1 witness scenario: server clock with
the server actor at 2. -/
def txC1 : Transaction :=
  { id := 7, user := 3, payload := "v1", vectorClock := [("server", 2)],
    syncStatus := "synced", checksum := hashGenerator.generateTransactionHash "v1",
    conflictsCount := 0 }

/-- C1 witness: the spec's scenario — server clock with server at 2, client
clock with server at 1 and device C at 1 — compares concurrent, and the
conflict path produces exactly the conflict data and entry above. -/
theorem reconcile_true_conflict_witness :
    (reconcile txC1 "v2" [("server", 1), ("C", 1)] "devA").1 =
      ReconcileResult.conflict "conflict" 1 ∧
    (reconcile txC1 "v2" [("server", 1), ("C", 1)] "devA").2 = some
      { transactionId := 7, userId := 3, serverState := txC1, clientState := "v2",
        serverClock := [("server", 2)], clientClock := [("server", 1), ("C", 1)],
        checksum := hashGenerator.generateTransactionHash "v2" } := by
  have h := reconcile_true_conflict txC1 "v2" [("server", 1), ("C", 1)] "devA"
    (Or.inl (by decide))
  exact ⟨h.2.1, h.1⟩

/-- C2: whenever the client clock strictly dominates (relation `greater`),
`reconcile` returns the `update` action whose persisted clock is the
pointwise-maximum merge of the server and client clocks with the `server`
actor's counter then incremented by one, and whose checksum is the content
hash recomputed over the client payload; in particular merging server clock
(server at 2) with client clock (server at 3, C at 1) yields (server at 3,
C at 1), and the increment yields (server at 4, C at 1). -/
theorem reconcile_causal_update (tx : Transaction) (cu : Payload) (cc : Clock) (dev : String)
    (h : vectorClockUtils.compare cc tx.vectorClock = vectorClockUtils.Relation.greater) :
    reconcile tx cu cc dev = (ReconcileResult.update cu
      (vectorClockUtils.increment (vectorClockUtils.merge tx.vectorClock cc) "server")
      (hashGenerator.generateTransactionHash cu), none) ∧
    vectorClockUtils.merge [("server", 2)] [("server", 3), ("C", 1)] =
      [("server", 3), ("C", 1)] ∧
    vectorClockUtils.increment
        (vectorClockUtils.merge [("server", 2)] [("server", 3), ("C", 1)]) "server" =
      [("server", 4), ("C", 1)] := by
  refine ⟨?_, by decide, by decide⟩
  simp [reconcile, h]

/-- The concrete stored record of the C2 witness scenario. -/
def txC2 : Transaction :=
  { id := 8, user := 3, payload := "v1", vectorClock := [("server", 2)],
    syncStatus := "synced", checksum := hashGenerator.generateTransactionHash "v1",
    conflictsCount := 0 }

/-- C2 witness: the spec's scenario — server clock (server at 2), client
clock (server at 3, C at 1) — compares greater and produces the `update`
action carrying the final clock (server at 4, C at 1) and the client
payload's recomputed hash. -/
theorem reconcile_causal_update_witness :
    reconcile txC2 "v2" [("server", 3), ("C", 1)] "devB" =
      (ReconcileResult.update "v2" [("server", 4), ("C", 1)]
        (hashGenerator.generateTransactionHash "v2"), none) := by
  have h := reconcile_causal_update txC2 "v2" [("server", 3), ("C", 1)] "devB" (by decide)
  rw [h.1]
  rw [show (vectorClockUtils.increment
    (vectorClockUtils.merge txC2.vectorClock [("server", 3), ("C", 1)]) "server")
    = [("server", 4), ("C", 1)] by decide]

/-- C7: whenever the client clock is causally behind the server clock (the
comparator's strictly-dominated case), `reconcile` returns the `ignore`
action with reason `stale_update`, creates nothing, and applying the result
leaves the record exactly unchanged. -/
theorem reconcile_stale_ignore (tx : Transaction) (cu : Payload) (cc : Clock) (dev : String)
    (h : vectorClockUtils.compare cc tx.vectorClock = vectorClockUtils.Relation.smaller) :
    reconcile tx cu cc dev = (ReconcileResult.ignore "stale_update", none) ∧
    applyResult tx (reconcile tx cu cc dev).1 = tx := by
  have hrec : reconcile tx cu cc dev = (ReconcileResult.ignore "stale_update", none) := by
    simp [reconcile, h]
  exact ⟨hrec, by rw [hrec]; rfl⟩

/-- The concrete stored record of the C7 witness scenario. -/
def txC7 : Transaction :=
  { id := 9, user := 4, payload := "v1", vectorClock := [("server", 2)],
    syncStatus := "synced", checksum := hashGenerator.generateTransactionHash "v1",
    conflictsCount := 0 }

/-- C7 witness: client clock (server at 1) against server clock
(server at 2) is the strictly-dominated case and is ignored as stale, the
record staying unchanged. -/
theorem reconcile_stale_ignore_witness :
    reconcile txC7 "old" [("server", 1)] "devC" =
      (ReconcileResult.ignore "stale_update", none) ∧
    applyResult txC7 (reconcile txC7 "old" [("server", 1)] "devC").1 = txC7 :=
  reconcile_stale_ignore txC7 "old" [("server", 1)] "devC" (by decide)

/-- C8: whenever the clocks compare as equal and the content hash computed
over the client update equals the record's stored checksum, `reconcile`
returns the `ignore` action with reason `redundant_update` and creates no
`ConflictEntry`. -/
theorem reconcile_redundant_resend (tx : Transaction) (cu : Payload) (cc : Clock) (dev : String)
    (h1 : vectorClockUtils.compare cc tx.vectorClock = vectorClockUtils.Relation.equal)
    (h2 : hashGenerator.generateTransactionHash cu = tx.checksum) :
    reconcile tx cu cc dev = (ReconcileResult.ignore "redundant_update", none) := by
  simp [reconcile, h1, h2.symm]

/-- The concrete stored record of the C8 witness scenario. -/
def txC8 : Transaction :=
  { id := 10, user := 5, payload := "v1", vectorClock := [("server", 2)],
    syncStatus := "synced", checksum := hashGenerator.generateTransactionHash "v1",
    conflictsCount := 0 }

/-- C8 witness: identical clocks (server at 2) and a client payload hashing
to the stored checksum are ignored as a redundant resend, with no conflict
entry created. -/
theorem reconcile_redundant_resend_witness :
    reconcile txC8 "v1" [("server", 2)] "devD" =
      (ReconcileResult.ignore "redundant_update", none) :=
  reconcile_redundant_resend txC8 "v1" [("server", 2)] "devD" (by decide) (by decide)

/-! ## Claim C5: resolveConflict error handling -/

/-- The populated transaction of the C5 scenario. -/
def txC5 : Transaction :=
  { id := 11, user := 6, payload := "srv", vectorClock := [("server", 3)],
    syncStatus := "conflict", checksum := hashGenerator.generateTransactionHash "srv",
    conflictsCount := 1 }

/-- An already-resolved conflict document referencing `txC5`. -/
def conflictC5 : ConflictEntry :=
  { transactionId := 11, userId := 6, serverState := txC5, clientState := "cli",
    serverClock := [("server", 3)], clientClock := [("server", 2), ("C", 1)],
    checksum := hashGenerator.generateTransactionHash "cli",
    status := "resolved", resolutionStrategy := some "merge", resolvedAt := true }

/-- C5 counterexample: resolving an already-resolved conflict does not fail
with a not-found/invalid-state error — the source never checks the
conflict's status, so the resolution runs again, succeeds, and modifies
both the record and the `ConflictEntry`. -/
theorem resolveConflict_resolved_not_rejected :
    conflictC5.status = "resolved" ∧
    (resolveConflict (some (conflictC5, txC5)) "client_wins" "x").toOption.isSome = true ∧
    (resolveConflict (some (conflictC5, txC5)) "client_wins" "x").toOption ≠
      some (txC5, conflictC5) := by
  decide

/-- C5 (amended): `resolveConflict` fails with the not-found error exactly
when the referenced conflict does not exist (returning an error, so nothing
is modified); an already-resolved conflict is not rejected — the resolution
path runs again and returns a successfully updated record and conflict. -/
theorem resolveConflict_missing_fails (strategy : String) (resolvedData : Payload) :
    resolveConflict none strategy resolvedData =
      Except.error "Conflict record not found" ∧
    ∀ (c : ConflictEntry) (tx : Transaction), c.status = "resolved" →
      (resolveConflict (some (c, tx)) "client_wins" resolvedData).toOption.isSome = true := by
  constructor
  · rfl
  · intro c tx _
    simp only [resolveConflict]
    rfl

/-- C5 witness: the missing-conflict error and the re-resolution of the
already-resolved `conflictC5`, evaluated at concrete inputs. -/
theorem resolveConflict_missing_fails_witness :
    resolveConflict none "server_wins" "x" = Except.error "Conflict record not found" ∧
    (resolveConflict (some (conflictC5, txC5)) "client_wins" "x").toOption.isSome = true :=
  ⟨(resolveConflict_missing_fails "server_wins" "x").1,
   (resolveConflict_missing_fails "client_wins" "x").2 conflictC5 txC5 (by decide)⟩

/-! ## Claim C6: determinism and duplicate conflict entries -/

/-- The concrete stored record of the C6 scenario. -/
def txC6 : Transaction :=
  { id := 12, user := 7, payload := "v1", vectorClock := [("server", 2)],
    syncStatus := "synced", checksum := hashGenerator.generateTransactionHash "v1",
    conflictsCount := 0 }

/-- C6 counterexample: repeating the identical conflicting `reconcile` call
does create a second `ConflictEntry` for the same logical conflict — each
call runs an unconditional `SyncConflict.create`, so two identical calls
leave two (content-identical) entries for transaction 12 in the graveyard. -/
theorem reconcile_repeat_creates_duplicate :
    (repeatedReconcileConflicts txC6 "v2" [("server", 1), ("C", 1)] "devE" 2).length = 2 ∧
    (repeatedReconcileConflicts txC6 "v2" [("server", 1), ("C", 1)] "devE" 2).map
      ConflictEntry.transactionId = [12, 12] := by
  decide

/-- C6 (amended): `reconcile` is deterministic — as a pure function of
(serverRecord, clientUpdate, clientClock) every repetition produces the same
result and the same `ConflictEntry` content — but repetition does not
deduplicate: `n` identical calls append exactly `n` copies of that one
entry, every one of which has the content of the single call's entry. -/
theorem reconcile_deterministic_appends (tx : Transaction) (cu : Payload) (cc : Clock)
    (dev : String) (n : Nat) :
    (repeatedReconcileConflicts tx cu cc dev n).length =
      n * (conflictsCreated tx cu cc dev).length ∧
    ∀ e ∈ repeatedReconcileConflicts tx cu cc dev n, e ∈ conflictsCreated tx cu cc dev := by
  constructor
  · simp [repeatedReconcileConflicts, List.length_flatten, List.map_replicate,
      List.sum_replicate, smul_eq_mul]
  · intro e he
    simp only [repeatedReconcileConflicts, List.mem_flatten] at he
    obtain ⟨l, hl, hel⟩ := he
    rwa [List.eq_of_mem_replicate hl] at hel

/-- C6 witness: three identical calls on the C6 scenario append three
entries, and the conflict entry of a single call is among them. -/
theorem reconcile_deterministic_appends_witness :
    (repeatedReconcileConflicts txC6 "v2" [("server", 1), ("C", 1)] "devE" 3).length =
      3 * (conflictsCreated txC6 "v2" [("server", 1), ("C", 1)] "devE").length ∧
    { transactionId := 12, userId := 7, serverState := txC6, clientState := "v2",
      serverClock := [("server", 2)], clientClock := [("server", 1), ("C", 1)],
      checksum := hashGenerator.generateTransactionHash "v2" : ConflictEntry } ∈
      conflictsCreated txC6 "v2" [("server", 1), ("C", 1)] "devE" := by
  have h := reconcile_deterministic_appends txC6 "v2" [("server", 1), ("C", 1)] "devE" 3
  refine ⟨h.1, h.2 _ ?_⟩
  decide

/-! ## Claim C3: snapshot replay refines from-scratch reconstruction -/

theorem applyDeltas_append (s : FinState) (l1 l2 : List Delta) :
    applyDeltas s (l1 ++ l2) = applyDeltas (applyDeltas s l1) l2 := by
  simp [applyDeltas, List.foldl_append]

/-- Splitting a time-range query at an intermediate instant: over a
chronologically ordered ledger, the deltas up to `t` are the deltas up to
`s` followed by the deltas strictly after `s` and up to `t`. -/
theorem deltasUpTo_split (l : List Delta) (s t : Nat) (hst : s ≤ t)
    (hs : l.Sorted (fun a b => a.timestamp ≤ b.timestamp)) :
    deltasUpTo l t = deltasUpTo l s ++ deltasInWindow l s t := by
  induction l with
  | nil => rfl
  | cons a l ih =>
    rw [List.sorted_cons] at hs
    obtain ⟨ha, hl⟩ := hs
    by_cases h1 : a.timestamp ≤ s
    · have h2 : a.timestamp ≤ t := le_trans h1 hst
      have h3 : ¬ s < a.timestamp := not_lt.mpr h1
      simp only [deltasUpTo, deltasInWindow, List.filter_cons, h1, h2, h3]
      simpa [deltasUpTo, deltasInWindow] using ih hl
    · have h1' : s < a.timestamp := not_le.mp h1
      have hgt : ∀ x ∈ a :: l, s < x.timestamp := by
        intro x hx
        rcases List.mem_cons.mp hx with rfl | hx
        · exact h1'
        · exact lt_of_lt_of_le h1' (ha x hx)
      have hno : deltasUpTo (a :: l) s = [] := by
        unfold deltasUpTo
        rw [List.filter_eq_nil_iff]
        intro x hx
        simp [Nat.not_le.mpr (hgt x hx)]
      have hcongr : deltasUpTo (a :: l) t = deltasInWindow (a :: l) s t := by
        unfold deltasUpTo deltasInWindow
        apply List.filter_congr
        intro x hx
        simp [hgt x hx]
      rw [hno, hcongr, List.nil_append]

/-- The snapshot returned by `findClosestSnapshot` is stored and dated at or
before the target. -/
theorem findClosestSnapshot_spec (snaps : List Snapshot) (t : Nat) (snap : Snapshot)
    (h : findClosestSnapshot snaps t = some snap) :
    snap ∈ snaps ∧ snap.snapshotDate ≤ t := by
  unfold findClosestSnapshot at h
  have hmem : snap ∈ snaps.filter fun s => decide (s.snapshotDate ≤ t) :=
    List.argmax_mem h
  rw [List.mem_filter] at hmem
  exact ⟨hmem.1, of_decide_eq_true hmem.2⟩

/-- C3: for every snapshot store whose snapshots are consistent checkpoints
of the chronologically ordered delta history (each snapshot's state is the
from-scratch reconstruction at its own date, which is how the snapshot
generator produces them from the replay engine's current state), replaying
to any target date through `replayToDate` — base snapshot plus the window
of deltas strictly after the snapshot date and at or before the target —
equals the from-scratch reconstruction over all deltas at or before the
target: the presence or absence of a base snapshot never changes the
answer. -/
theorem replayToDate_eq_reconstructFromScratch
    (snaps : List Snapshot) (history : List Delta) (t : Nat)
    (hsorted : history.Sorted (fun a b => a.timestamp ≤ b.timestamp))
    (hcons : ∀ snap ∈ snaps, snap.state = reconstructFromScratch history snap.snapshotDate) :
    replayToDate snaps history t = reconstructFromScratch history t := by
  unfold replayToDate
  cases hfind : findClosestSnapshot snaps t with
  | none => rfl
  | some snap =>
    obtain ⟨hmem, hdate⟩ := findClosestSnapshot_spec snaps t snap hfind
    show applyDeltas snap.state (deltasInWindow history snap.snapshotDate t) =
      reconstructFromScratch history t
    rw [hcons snap hmem]
    unfold reconstructFromScratch
    rw [← applyDeltas_append, ← deltasUpTo_split history snap.snapshotDate t hdate hsorted]

/-- The two-delta history of the C3 witness. -/
def historyC3 : List Delta :=
  [{ entityType := "expense", entityId := 1, operation := "create", timestamp := 1,
     financialImpact := { balanceChange := -5, affectedCategories := ["a"], affectedBudgets := [], affectedGoals := [] } },
   { entityType := "income", entityId := 2, operation := "create", timestamp := 2,
     financialImpact := { balanceChange := 7, affectedCategories := ["b"], affectedBudgets := [], affectedGoals := [] } }]

/-- A consistent checkpoint of `historyC3` at date 1. -/
def snapC3 : Snapshot :=
  { snapshotDate := 1, state := reconstructFromScratch historyC3 1 }

/-- C3 witness: with the consistent checkpoint `snapC3` present, replaying
to date 2 equals the from-scratch reconstruction at date 2. -/
theorem replayToDate_eq_reconstructFromScratch_witness :
    replayToDate [snapC3] historyC3 2 = reconstructFromScratch historyC3 2 :=
  replayToDate_eq_reconstructFromScratch [snapC3] historyC3 2 (by decide) (by decide)

/-! ## Claim C9: three-day daily evolution -/

/-- C9: over any start date and the end date exactly three days later, the
daily `getStateEvolution` returns exactly 4 samples, one per day inclusive
of both endpoints, and each sample's balance, income and expenses equal
those of an independent `replayToDate` call at that sample's date. -/
theorem getStateEvolution_three_day_daily (snaps : List Snapshot) (history : List Delta)
    (start : Nat) :
    (getStateEvolution snaps history start (start + 3)).length = 4 ∧
    (getStateEvolution snaps history start (start + 3)).map Sample.date =
      [start, start + 1, start + 2, start + 3] ∧
    ∀ sm ∈ getStateEvolution snaps history start (start + 3),
      sm.balance = (replayToDate snaps history sm.date).totalBalance ∧
      sm.income = (replayToDate snaps history sm.date).totalIncome ∧
      sm.expenses = (replayToDate snaps history sm.date).totalExpenses := by
  have hfuel : start + 3 + 1 - start = 4 := by omega
  have hev : getStateEvolution snaps history start (start + 3) =
      [sampleAt snaps history start, sampleAt snaps history (start + 1),
       sampleAt snaps history (start + 2), sampleAt snaps history (start + 3)] := by
    unfold getStateEvolution
    rw [hfuel]
    rfl
  refine ⟨by rw [hev]; rfl, by rw [hev]; rfl, ?_⟩
  intro sm hsm
  rw [hev] at hsm
  simp only [List.mem_cons, List.not_mem_nil, or_false] at hsm
  rcases hsm with rfl | rfl | rfl | rfl <;> exact ⟨rfl, rfl, rfl⟩

/-- C9 witness: the four-sample shape and the per-sample consistency with
`replayToDate`, evaluated on the empty store from day 0 to day 3. -/
theorem getStateEvolution_three_day_daily_witness :
    (getStateEvolution [] [] 0 (0 + 3)).length = 4 ∧
    (sampleAt [] [] 2).balance = (replayToDate [] [] (sampleAt [] [] 2).date).totalBalance := by
  have h := getStateEvolution_three_day_daily [] [] 0
  exact ⟨h.1, (h.2.2 (sampleAt [] [] 2) (by decide)).1⟩
